/-
Verification of the ODIN pattern-performance subsystem.

Shallow embedding of the pattern store (src/src/patterns/database.py), the
tracker recommendation logic (src/src/patterns/tracker.py), the classifier
(src/src/patterns/classifier.py with config/settings.py thresholds), the
memory injector (src/src/patterns/memory_injector.py) and the analyzer
orchestration (src/src/patterns/analyzer.py).

Numeric fields are embedded as rationals (exact arithmetic standing in for
Python floats), SQL rows as Lean structures, the pattern table as a list of
rows, and Python exceptions as `Except String`.
-/
import Mathlib

namespace Odin

/-- A row of the `trade_patterns` table, restricted to the fields read and
written by `PatternDatabase.update_pattern_performance` and the analysis
queries.  `confidence_level` keeps the source's string encoding. -/
structure PatternStats where
  pattern_id : String
  strategy_type : String := ""
  market_regime : String := ""
  volume_profile : String := ""
  technical_setup : String := ""
  total_trades : Nat
  winning_trades : Nat
  losing_trades : Nat
  win_rate : ℚ
  avg_win_percent : ℚ
  avg_loss_percent : ℚ
  expectancy : ℚ
  recent_trades : List ℚ
  recent_win_rate : ℚ
  recent_avg_return : ℚ
  momentum_score : ℚ
  confidence_level : String
  is_active : Bool := true
  deriving Repr, DecidableEq

/-- Modelled from the spec: the `trade_patterns` DDL is not under src/ (only
the INSERT/SELECT/UPDATE statements are), so the column defaults of a freshly
created row are taken from the spec (§3: zero trade counts, empty rolling
window, low confidence) together with `get_pattern_stats` reading a NULL
`recent_trades` as the empty window (`current['recent_trades'] or []`). -/
def freshPattern (pid : String) (strategy regime volume technical : String) :
    PatternStats :=
  { pattern_id := pid
    strategy_type := strategy
    market_regime := regime
    volume_profile := volume
    technical_setup := technical
    total_trades := 0
    winning_trades := 0
    losing_trades := 0
    win_rate := 0
    avg_win_percent := 0
    avg_loss_percent := 0
    expectancy := 0
    recent_trades := []
    recent_win_rate := 0
    recent_avg_return := 0
    momentum_score := 0
    confidence_level := "low"
    is_active := true }

/-- `PatternDatabase.update_pattern_performance` (database.py lines 105-201),
the pure statistics update applied to the fetched row: increment the trade
counters, re-average the win/loss bucket the new trade falls into, recompute
win rate and expectancy, append the P&L to the rolling 20-entry window, and
recompute the window metrics, momentum and confidence tier. -/
def updatePatternPerformance (current : PatternStats) (pnl : ℚ) : PatternStats :=
  let total_trades : Nat := current.total_trades + 1
  let winning_trades : Nat := current.winning_trades + (if pnl > 0 then 1 else 0)
  let losing_trades : Nat := current.losing_trades + (if pnl ≤ 0 then 1 else 0)
  let avg_win : ℚ :=
    if pnl > 0 then
      (current.avg_win_percent * current.winning_trades + pnl) /
        (if winning_trades = 0 then 1 else (winning_trades : ℚ))
    else current.avg_win_percent
  let avg_loss : ℚ :=
    if pnl ≤ 0 then
      (current.avg_loss_percent * current.losing_trades + |pnl|) /
        (if losing_trades = 0 then 1 else (losing_trades : ℚ))
    else current.avg_loss_percent
  let win_rate : ℚ :=
    if 0 < total_trades then (winning_trades : ℚ) / (total_trades : ℚ) else 0
  let expectancy : ℚ := win_rate * avg_win - (1 - win_rate) * avg_loss
  let appended : List ℚ := current.recent_trades ++ [pnl]
  let recent_trades : List ℚ :=
    if appended.length > 20 then appended.drop (appended.length - 20) else appended
  let recent_wins : Nat := (recent_trades.filter (fun t => t > 0)).length
  let recent_win_rate : ℚ :=
    if recent_trades.length ≠ 0 then (recent_wins : ℚ) / (recent_trades.length : ℚ) else 0
  let recent_avg_return : ℚ :=
    if recent_trades.length ≠ 0 then recent_trades.sum / (recent_trades.length : ℚ) else 0
  let momentum_score : ℚ := recent_win_rate - win_rate
  let confidence_level : String :=
    if total_trades ≥ 50 then "high"
    else if total_trades ≥ 20 then "medium"
    else "low"
  { current with
    total_trades := total_trades
    winning_trades := winning_trades
    losing_trades := losing_trades
    win_rate := win_rate
    avg_win_percent := avg_win
    avg_loss_percent := avg_loss
    expectancy := expectancy
    recent_trades := recent_trades
    recent_win_rate := recent_win_rate
    recent_avg_return := recent_avg_return
    momentum_score := momentum_score
    confidence_level := confidence_level }

/-- End-to-end scenario 2 of the spec, as a sanity check on the embedding:
a single winning close on a fresh pattern. -/
example :
    let s := updatePatternPerformance (freshPattern "p" "" "" "" "") (333/100)
    s.total_trades = 1 ∧ s.winning_trades = 1 ∧ s.win_rate = 1 ∧
      s.recent_win_rate = 1 ∧ s.momentum_score = 0 ∧ s.confidence_level = "low" := by
  norm_num [updatePatternPerformance, freshPattern]

/-- The statistics-consistency invariant of the spec: the win and loss
counters partition the trade count, and the stored win rate is the exact
quotient whenever trades exist. -/
def statsConsistent (s : PatternStats) : Prop :=
  s.winning_trades + s.losing_trades = s.total_trades ∧
    (0 < s.total_trades → s.win_rate = (s.winning_trades : ℚ) / (s.total_trades : ℚ))

lemma updatePatternPerformance_total (s : PatternStats) (p : ℚ) :
    (updatePatternPerformance s p).total_trades = s.total_trades + 1 := rfl

lemma updatePatternPerformance_winning (s : PatternStats) (p : ℚ) :
    (updatePatternPerformance s p).winning_trades
      = s.winning_trades + (if p > 0 then 1 else 0) := rfl

lemma updatePatternPerformance_losing (s : PatternStats) (p : ℚ) :
    (updatePatternPerformance s p).losing_trades
      = s.losing_trades + (if p ≤ 0 then 1 else 0) := rfl

lemma updatePatternPerformance_win_rate (s : PatternStats) (p : ℚ) :
    (updatePatternPerformance s p).win_rate
      = ((updatePatternPerformance s p).winning_trades : ℚ) /
          ((updatePatternPerformance s p).total_trades : ℚ) := by
  simp [updatePatternPerformance]

lemma statsConsistent_update (s : PatternStats) (p : ℚ)
    (h : s.winning_trades + s.losing_trades = s.total_trades) :
    statsConsistent (updatePatternPerformance s p) := by
  refine ⟨?_, fun _ => updatePatternPerformance_win_rate s p⟩
  rw [updatePatternPerformance_winning, updatePatternPerformance_losing,
    updatePatternPerformance_total]
  rcases le_or_lt p 0 with hp | hp
  · simp [hp, not_lt.mpr hp]
    omega
  · simp [hp, not_le.mpr hp]
    omega

lemma statsConsistent_foldl :
    ∀ (l : List ℚ) (s : PatternStats),
      statsConsistent s → statsConsistent (l.foldl updatePatternPerformance s)
  | [], _, hs => hs
  | p :: l, s, hs =>
    statsConsistent_foldl l (updatePatternPerformance s p)
      (statsConsistent_update s p hs.1)

lemma statsConsistent_fresh (pid a b c d : String) :
    statsConsistent (freshPattern pid a b c d) := by
  constructor <;> simp [freshPattern]

/-- C1.  Starting from a freshly created pattern, after any sequence of
trade closes the counters partition the total and the stored win rate is
winning/total (exactly, in ℚ); moreover a single close always increments
the total by one and exactly one of the win/loss counters, split on
realized P&L% > 0 versus ≤ 0. -/
theorem update_on_close_statistics_consistent
    (pid a b c d : String) (pnls : List ℚ) :
    statsConsistent (pnls.foldl updatePatternPerformance (freshPattern pid a b c d)) ∧
      ∀ (s : PatternStats) (p : ℚ),
        (updatePatternPerformance s p).total_trades = s.total_trades + 1 ∧
        (0 < p →
          (updatePatternPerformance s p).winning_trades = s.winning_trades + 1 ∧
          (updatePatternPerformance s p).losing_trades = s.losing_trades) ∧
        (p ≤ 0 →
          (updatePatternPerformance s p).winning_trades = s.winning_trades ∧
          (updatePatternPerformance s p).losing_trades = s.losing_trades + 1) := by
  refine ⟨statsConsistent_foldl pnls _ (statsConsistent_fresh pid a b c d),
    fun s p => ⟨updatePatternPerformance_total s p, fun hp => ?_, fun hp => ?_⟩⟩
  · rw [updatePatternPerformance_winning, updatePatternPerformance_losing]
    simp [hp, not_le.mpr hp]
  · rw [updatePatternPerformance_winning, updatePatternPerformance_losing]
    simp [hp, not_lt.mpr hp]

/-- Witness for C1: two concrete closes (+3 then -2) on a fresh pattern,
with the inner hypotheses discharged at p = 3 and p = -2. -/
theorem update_on_close_statistics_consistent_witness :
    ((List.foldl updatePatternPerformance (freshPattern "p" "a" "b" "c" "d")
        [3, -2]).win_rate
      = ((List.foldl updatePatternPerformance (freshPattern "p" "a" "b" "c" "d")
          [3, -2]).winning_trades : ℚ) /
        ((List.foldl updatePatternPerformance (freshPattern "p" "a" "b" "c" "d")
          [3, -2]).total_trades : ℚ)) ∧
    (updatePatternPerformance (freshPattern "p" "a" "b" "c" "d") 3).winning_trades
      = 1 ∧
    (updatePatternPerformance
        (updatePatternPerformance (freshPattern "p" "a" "b" "c" "d") 3)
        (-2)).losing_trades = 1 := by
  have h := update_on_close_statistics_consistent "p" "a" "b" "c" "d" [3, -2]
  refine ⟨h.1.2 ?_, ?_, ?_⟩
  · show 0 < (List.foldl updatePatternPerformance _ [3, -2]).total_trades
    simp [List.foldl, updatePatternPerformance_total]
  · have h3 := (h.2 (freshPattern "p" "a" "b" "c" "d") 3).2.1 (by norm_num)
    rw [h3.1]
    rfl
  · have h2 := (h.2 (updatePatternPerformance (freshPattern "p" "a" "b" "c" "d") 3)
      (-2)).2.2 (by norm_num)
    rw [h2.2]
    have h3 := (h.2 (freshPattern "p" "a" "b" "c" "d") 3).2.1 (by norm_num)
    rw [h3.2]
    rfl

lemma updatePatternPerformance_recent (s : PatternStats) (p : ℚ) :
    (updatePatternPerformance s p).recent_trades
      = (s.recent_trades ++ [p]).drop ((s.recent_trades ++ [p]).length - 20) := by
  show (if (s.recent_trades ++ [p]).length > 20 then _ else s.recent_trades ++ [p]) = _
  split
  · rfl
  · rename_i hlen
    rw [Nat.sub_eq_zero_of_le (by omega), List.drop_zero]

lemma drop_window_absorb (a b : List ℚ) :
    ((a.drop (a.length - 20)) ++ b).drop
        (((a.drop (a.length - 20)) ++ b).length - 20)
      = (a ++ b).drop ((a ++ b).length - 20) := by
  rw [List.drop_append_eq_append_drop, List.drop_append_eq_append_drop,
    List.drop_drop]
  simp only [List.length_append, List.length_drop]
  congr 2 <;> omega

lemma foldl_recent :
    ∀ (l : List ℚ) (s : PatternStats),
      s.recent_trades = s.recent_trades.drop (s.recent_trades.length - 20) →
      (l.foldl updatePatternPerformance s).recent_trades
        = (s.recent_trades ++ l).drop ((s.recent_trades ++ l).length - 20)
  | [], s, hs => by simpa using hs
  | p :: l, s, hs => by
    have hstep := updatePatternPerformance_recent s p
    have hrec : (updatePatternPerformance s p).recent_trades
        = (updatePatternPerformance s p).recent_trades.drop
            ((updatePatternPerformance s p).recent_trades.length - 20) := by
      rw [hstep, List.length_drop, List.drop_drop]
      congr 1
      omega
    have ih := foldl_recent l (updatePatternPerformance s p) hrec
    calc ((p :: l).foldl updatePatternPerformance s).recent_trades
        = (l.foldl updatePatternPerformance (updatePatternPerformance s p)).recent_trades := rfl
      _ = ((updatePatternPerformance s p).recent_trades ++ l).drop
            (((updatePatternPerformance s p).recent_trades ++ l).length - 20) := ih
      _ = (((s.recent_trades ++ [p]).drop ((s.recent_trades ++ [p]).length - 20)) ++ l).drop
            ((((s.recent_trades ++ [p]).drop ((s.recent_trades ++ [p]).length - 20)) ++ l).length - 20) := by
            rw [hstep]
      _ = ((s.recent_trades ++ [p]) ++ l).drop
            (((s.recent_trades ++ [p]) ++ l).length - 20) := drop_window_absorb _ l
      _ = (s.recent_trades ++ (p :: l)).drop
            ((s.recent_trades ++ (p :: l)).length - 20) := by
            rw [List.append_assoc]
            rfl

/-- C2.  From a fresh pattern, the rolling window after any sequence of
closes is exactly the last (at most 20) recorded P&L values in order; in
particular it never exceeds 20 entries, and after 21 closes it is the 21
values with the first dropped. -/
theorem rolling_window_bound_fifo
    (pid a b c d : String) (pnls : List ℚ) :
    (pnls.foldl updatePatternPerformance (freshPattern pid a b c d)).recent_trades
        = pnls.drop (pnls.length - 20) ∧
      (pnls.foldl updatePatternPerformance
        (freshPattern pid a b c d)).recent_trades.length ≤ 20 ∧
      (pnls.length = 21 →
        (pnls.foldl updatePatternPerformance
          (freshPattern pid a b c d)).recent_trades = pnls.drop 1) := by
  have h := foldl_recent pnls (freshPattern pid a b c d) (by simp [freshPattern])
  have hmain :
      (pnls.foldl updatePatternPerformance (freshPattern pid a b c d)).recent_trades
        = pnls.drop (pnls.length - 20) := by
    simpa [freshPattern] using h
  refine ⟨hmain, ?_, fun h21 => by rw [hmain, h21]⟩
  rw [hmain, List.length_drop]
  omega

/-- The concrete 21-close sequence 1,…,21 used to witness the FIFO bound. -/
def windowWitnessList : List ℚ :=
  [1, 2, 3, 4, 5, 6, 7, 8, 9, 10, 11, 12, 13, 14, 15, 16, 17, 18, 19, 20, 21]

/-- Witness for C2: the 21-close hypothesis discharged on a concrete
sequence 1,…,21 — the window is 2,…,21. -/
theorem rolling_window_bound_fifo_witness :
    (windowWitnessList.foldl updatePatternPerformance
        (freshPattern "p" "a" "b" "c" "d")).recent_trades
      = windowWitnessList.drop 1 := by
  exact (rolling_window_bound_fifo "p" "a" "b" "c" "d" windowWitnessList).2.2 rfl

/-! The `trade_patterns` table as a list of rows keyed by `pattern_id`. -/

/-- `PatternDatabase.create_pattern` (database.py lines 33-61): an
`INSERT OR IGNORE` keyed on `pattern_id` — append a fresh row only when no
row with that id exists, otherwise leave the table untouched. -/
def createPattern (db : List PatternStats) (pid : String)
    (strategy regime volume technical : String) : List PatternStats :=
  if db.any (fun r => r.pattern_id == pid) then db
  else db ++ [freshPattern pid strategy regime volume technical]

/-- `PatternDatabase.get_pattern_stats` (database.py lines 63-103): the row
with the given id, if any. -/
def getPatternStats (db : List PatternStats) (pid : String) :
    Option PatternStats :=
  db.find? (fun r => r.pattern_id == pid)

/-- `PatternDatabase.update_pattern_performance` at the table level
(database.py lines 105-201): fetch the row (returning failure when absent),
apply the statistics update, and write it back `WHERE pattern_id = ?`. -/
def updatePatternPerformanceDb (db : List PatternStats) (pid : String)
    (pnl : ℚ) : List PatternStats × Bool :=
  match db.find? (fun r => r.pattern_id == pid) with
  | none => (db, false)
  | some _ =>
      (db.map (fun r =>
        if r.pattern_id == pid then updatePatternPerformance r pnl else r), true)

/-- The `WHERE` clause of `PatternDatabase.get_breaking_patterns`
(database.py lines 219-233). -/
def breakingPred (threshold : ℚ) (min_trades : Nat) (r : PatternStats) : Bool :=
  decide (min_trades ≤ r.total_trades) && decide (r.recent_win_rate < threshold) &&
    decide ((0.50 : ℚ) < r.win_rate) && r.is_active

/-- `PatternDatabase.get_breaking_patterns` (database.py lines 219-233):
filter on the breakdown conditions and order by
`recent_win_rate - win_rate` ascending. -/
def getBreakingPatterns (db : List PatternStats) (threshold : ℚ)
    (min_trades : Nat) : List PatternStats :=
  (db.filter (breakingPred threshold min_trades)).mergeSort
    (fun a b =>
      decide (a.recent_win_rate - a.win_rate ≤ b.recent_win_rate - b.win_rate))

/-- The boundary pattern of the spec: `win_rate = 0.55`, `total_trades = 25`,
with a parameterized recent win rate. -/
def boundaryPattern (recent : ℚ) : PatternStats :=
  { pattern_id := "mean_reversion_fear_high_oversold"
    total_trades := 25
    winning_trades := 14
    losing_trades := 11
    win_rate := 0.55
    avg_win_percent := 2
    avg_loss_percent := 1
    expectancy := 1
    recent_trades := []
    recent_win_rate := recent
    recent_avg_return := 0
    momentum_score := 0
    confidence_level := "medium"
    is_active := true }

/-- C7.  Membership in `get_breaking_patterns` is exactly: active, at least
`min_trades` trades, historical win rate above 0.50, recent win rate below
the threshold; at the spec's boundary, recent 0.39 is included and recent
0.41 is excluded for `threshold = 0.40, min_trades = 20`. -/
theorem breaking_patterns_characterization :
    (∀ (db : List PatternStats) (threshold : ℚ) (min_trades : Nat)
        (p : PatternStats),
      p ∈ getBreakingPatterns db threshold min_trades ↔
        p ∈ db ∧ min_trades ≤ p.total_trades ∧
          p.recent_win_rate < threshold ∧ (0.50 : ℚ) < p.win_rate ∧
          p.is_active = true) ∧
    boundaryPattern 0.39 ∈ getBreakingPatterns [boundaryPattern 0.39] 0.40 20 ∧
    boundaryPattern 0.41 ∉ getBreakingPatterns [boundaryPattern 0.41] 0.40 20 := by
  have hmem : ∀ (db : List PatternStats) (threshold : ℚ) (min_trades : Nat)
      (p : PatternStats),
      p ∈ getBreakingPatterns db threshold min_trades ↔
        p ∈ db ∧ min_trades ≤ p.total_trades ∧
          p.recent_win_rate < threshold ∧ (0.50 : ℚ) < p.win_rate ∧
          p.is_active = true := by
    intro db threshold min_trades p
    rw [getBreakingPatterns, List.mem_mergeSort, List.mem_filter, breakingPred]
    simp [and_assoc]
  refine ⟨hmem, ?_, ?_⟩
  · rw [hmem]
    refine ⟨List.mem_singleton.mpr rfl, ?_, ?_, ?_, rfl⟩ <;>
      norm_num [boundaryPattern]
  · rw [hmem]
    intro h
    have := h.2.2.1
    norm_num [boundaryPattern] at this

lemma updatePatternPerformance_id (s : PatternStats) (p : ℚ) :
    (updatePatternPerformance s p).pattern_id = s.pattern_id := rfl

lemma updatePatternPerformanceDb_ids (db : List PatternStats) (pid : String)
    (pnl : ℚ) :
    ((updatePatternPerformanceDb db pid pnl).1).map (·.pattern_id)
      = db.map (·.pattern_id) := by
  cases h : db.find? (fun r => r.pattern_id == pid) with
  | none => simp [updatePatternPerformanceDb, h]
  | some r =>
      simp only [updatePatternPerformanceDb, h, List.map_map]
      apply List.map_congr_left
      intro a _
      show (if a.pattern_id == pid then updatePatternPerformance a pnl else a).pattern_id
          = a.pattern_id
      split
      · rfl
      · rfl

lemma createPattern_of_present (db : List PatternStats) (pid : String)
    (a b c d : String) (h : pid ∈ db.map (·.pattern_id)) :
    createPattern db pid a b c d = db := by
  rw [createPattern, if_pos]
  rw [List.any_eq_true]
  rcases List.mem_map.mp h with ⟨r, hr, hid⟩
  exact ⟨r, hr, by simp [hid]⟩

lemma createPattern_present (db : List PatternStats) (pid : String)
    (a b c d : String) :
    pid ∈ (createPattern db pid a b c d).map (·.pattern_id) := by
  rw [createPattern]
  split
  · rename_i h
    rw [List.any_eq_true] at h
    rcases h with ⟨r, hr, hid⟩
    exact List.mem_map.mpr ⟨r, hr, (beq_iff_eq.mp hid)⟩
  · refine List.mem_map.mpr ⟨freshPattern pid a b c d, ?_, rfl⟩
    simp

lemma foldl_updateDb_ids (pnls : List ℚ) (pid : String) :
    ∀ (db : List PatternStats),
      (pnls.foldl (fun acc p => (updatePatternPerformanceDb acc pid p).1) db).map
          (·.pattern_id)
        = db.map (·.pattern_id) := by
  induction pnls with
  | nil => intro db; rfl
  | cons p l ih =>
      intro db
      calc ((p :: l).foldl (fun acc q => (updatePatternPerformanceDb acc pid q).1)
              db).map (·.pattern_id)
          = ((updatePatternPerformanceDb db pid p).1).map (·.pattern_id) := ih _
        _ = db.map (·.pattern_id) := updatePatternPerformanceDb_ids db pid p

/-- C8.  Create-if-absent is idempotent across trade recording: creating a
pattern, recording any sequence of trade closes, then creating the same id
again leaves the table — statistics included — exactly as it was. -/
theorem create_pattern_insert_if_absent
    (db : List PatternStats) (pid : String) (a b c d a2 b2 c2 d2 : String)
    (pnls : List ℚ) :
    createPattern
        (pnls.foldl (fun acc p => (updatePatternPerformanceDb acc pid p).1)
          (createPattern db pid a b c d))
        pid a2 b2 c2 d2
      = pnls.foldl (fun acc p => (updatePatternPerformanceDb acc pid p).1)
          (createPattern db pid a b c d) := by
  apply createPattern_of_present
  rw [foldl_updateDb_ids]
  exact createPattern_present db pid a b c d

/-! Pattern classifier (classifier.py) with the thresholds of
config/settings.py. -/

/-- Contiguous-sublist test on character lists. -/
def listInfixOf (needle : List Char) : List Char → Bool
  | [] => needle.isEmpty
  | c :: t => needle.isPrefixOf (c :: t) || listInfixOf needle t

/-- Python's `'needle' in haystack` substring test. -/
def containsSub (needle hay : String) : Bool :=
  listInfixOf needle.toList hay.toList

/-- Python's `str.lower()` on the ASCII regime labels used here. -/
def lowerAscii (s : String) : String :=
  String.mk (s.toList.map Char.toLower)

/-- The regime descriptor consumed by `_classify_regime`: an optional
explicit label and an optional raw fear-greed value (Python dict keys
`regime` and `fear_greed_value`). -/
structure RegimeData where
  regime : Option String
  fear_greed_value : Option ℚ

/-- `PatternClassifier._classify_regime` (classifier.py lines 118-152): use
the explicit label when present — substring-matching `'extreme fear'`
before `'fear'`, and `'greed' and 'extreme'` before `'greed'` — otherwise
bucket the raw value (default 50) against the
`PATTERN_FEAR_GREED_THRESHOLDS` cut points 25/45/55/75
(settings.py lines 64-69). -/
def classifyRegime (rd : RegimeData) : String :=
  match rd.regime with
  | some r =>
      let t := lowerAscii r
      if containsSub "extreme fear" t then "extreme_fear"
      else if containsSub "fear" t then "fear"
      else if containsSub "greed" t && containsSub "extreme" t then "extreme_greed"
      else if containsSub "greed" t then "greed"
      else "neutral"
  | none =>
      let fg := rd.fear_greed_value.getD 50
      if fg ≤ 25 then "extreme_fear"
      else if fg ≤ 45 then "fear"
      else if fg ≤ 55 then "neutral"
      else if fg ≤ 75 then "greed"
      else "extreme_greed"

/-- The spec's fallback bucketing, written from the spec's words: a raw
0-100 value against the four ascending cut points 25, 45, 55, 75. -/
def fearGreedBucketSpec (v : ℚ) : String :=
  if v ≤ 25 then "extreme_fear"
  else if v ≤ 45 then "fear"
  else if v ≤ 55 then "neutral"
  else if v ≤ 75 then "greed"
  else "extreme_greed"

/-- Counterexample to C6: the canonical label `extreme_fear` (underscored,
exactly what the regime detector's `_interpret_regime` emits) is bucketed
into plain `fear`, because the first branch matches the space-separated
phrase `'extreme fear'` only. -/
theorem classify_regime_extreme_fear_misbucketed :
    classifyRegime ⟨some "extreme_fear", none⟩ = "fear" := by
  rfl

/-- C6 (amended).  Label matching checks the space-separated phrase
`extreme fear` before `fear`, and the substring pair `greed`+`extreme`
before `greed`: phrase-form extreme labels and every extreme-greed label
are bucketed correctly, and a label containing `extreme` is never bucketed
as plain `greed` — but the canonical underscored `extreme_fear` falls into
`fear`.  Without a label, the raw value is bucketed against the ascending
cut points 25, 45, 55, 75. -/
theorem classify_regime_amended :
    classifyRegime ⟨some "Extreme Fear", none⟩ = "extreme_fear" ∧
    classifyRegime ⟨some "extreme_fear", none⟩ = "fear" ∧
    classifyRegime ⟨some "Extreme Greed", none⟩ = "extreme_greed" ∧
    classifyRegime ⟨some "extreme_greed", none⟩ = "extreme_greed" ∧
    classifyRegime ⟨some "Fear", none⟩ = "fear" ∧
    classifyRegime ⟨some "Greed", none⟩ = "greed" ∧
    classifyRegime ⟨some "Neutral", none⟩ = "neutral" ∧
    (∀ (s : String) (fg : Option ℚ),
      containsSub "extreme" (lowerAscii s) = true →
      classifyRegime ⟨some s, fg⟩ ≠ "greed") ∧
    (∀ v : ℚ, classifyRegime ⟨none, some v⟩ = fearGreedBucketSpec v) := by
  refine ⟨rfl, rfl, rfl, rfl, rfl, rfl, rfl, ?_, fun v => rfl⟩
  intro s fg hx
  show (if containsSub "extreme fear" (lowerAscii s) then "extreme_fear"
    else if containsSub "fear" (lowerAscii s) then "fear"
    else if containsSub "greed" (lowerAscii s) && containsSub "extreme" (lowerAscii s)
      then "extreme_greed"
    else if containsSub "greed" (lowerAscii s) then "greed"
    else "neutral") ≠ "greed"
  split_ifs with h1 h2 h3 h4
  · simp
  · simp
  · simp
  · rw [hx] at h3
    simp [h4] at h3
  · simp

/-- Witness for the amended C6: the never-plain-greed implication
discharged at the concrete label `extreme_greed`. -/
theorem classify_regime_amended_witness :
    classifyRegime ⟨some "extreme_greed", (none : Option ℚ)⟩ ≠ "greed" :=
  classify_regime_amended.2.2.2.2.2.2.2.1 "extreme_greed" none rfl

/-- The per-candidate metrics read by `_calculate_confidence`
(classifier.py lines 186-210): `rsi_2` and `volume_ratio`, each optional
with documented defaults 50 and 1.0. -/
structure StockMetrics where
  rsi_2 : Option ℚ
  volume_ratio : Option ℚ

/-- `PatternClassifier._calculate_confidence` (classifier.py lines
186-210): start at 1.0, multiply by 0.8 near each threshold boundary,
by 1.2 for extreme readings, and cap at 1.0. -/
def calculateConfidence (m : StockMetrics) : ℚ :=
  let rsi := m.rsi_2.getD 50
  let volume_ratio := m.volume_ratio.getD 1.0
  let c1 : ℚ := 1.0
  let c2 := if (25 < rsi ∧ rsi < 35) ∨ (65 < rsi ∧ rsi < 75) then c1 * 0.8 else c1
  let c3 := if (0.65 < volume_ratio ∧ volume_ratio < 0.75) ∨
      (1.45 < volume_ratio ∧ volume_ratio < 1.55) then c2 * 0.8 else c2
  let c4 := if rsi < 20 ∨ 80 < rsi then c3 * 1.2 else c3
  let c5 := if 3.0 < volume_ratio then c4 * 1.2 else c4
  min c5 1.0

/-- C9.  For every metrics record the classification confidence lies in
[0.64, 1]: at most one 0.8 penalty per input and the 1.0 cap bound it, so
it can never be negative. -/
theorem classification_confidence_bounds (m : StockMetrics) :
    (0.64 : ℚ) ≤ calculateConfidence m ∧ calculateConfidence m ≤ 1 := by
  rw [calculateConfidence]
  split_ifs <;>
    exact ⟨le_min (by norm_num) (by norm_num),
      le_trans (min_le_right _ _) (by norm_num)⟩

/-- Witness for C9 (the statement is hypothesis-free; evaluated at a
concrete boundary input where both penalties apply). -/
theorem classification_confidence_bounds_witness :
    (0.64 : ℚ) ≤ calculateConfidence ⟨some 30, some (3/2)⟩ ∧
      calculateConfidence ⟨some 30, some (3/2)⟩ ≤ 1 :=
  classification_confidence_bounds ⟨some 30, some (3/2)⟩

/-! Tracker recommendation generation (tracker.py). -/

/-- The branch chosen by `PatternTracker._generate_recommendation`; the
formatted string each branch returns is abstracted to its tag (the strings
interpolate floats, which have no faithful embedding; the claim is about
which rule fires). -/
inductive RecommendationTag where
  | lowData
  | hotPattern
  | coldPattern
  | profitable
  | losingPattern
  | neutralStandard
  deriving Repr, DecidableEq

/-- `PatternTracker._generate_recommendation` (tracker.py lines 159-177):
first-match precedence over the five guarded rules, with the neutral text
as fallback. -/
def generateRecommendation (s : PatternStats) : RecommendationTag :=
  if s.confidence_level = "low" then .lowData
  else if s.recent_win_rate > 0.70 ∧ s.momentum_score > 0.1 then .hotPattern
  else if s.recent_win_rate < 0.35 then .coldPattern
  else if s.expectancy > 0.02 then .profitable
  else if s.expectancy < -0.01 then .losingPattern
  else .neutralStandard

/-- The claim's rule list, written from its words: low confidence is fewer
than 20 trades, and the hot rule requires recent win rate > 0.70 together
with POSITIVE momentum. -/
def claimedRecommendationC5 (s : PatternStats) : RecommendationTag :=
  if s.total_trades < 20 then .lowData
  else if s.recent_win_rate > 0.70 ∧ s.momentum_score > 0 then .hotPattern
  else if s.recent_win_rate < 0.35 then .coldPattern
  else if s.expectancy > 0.02 then .profitable
  else if s.expectancy < -0.01 then .losingPattern
  else .neutralStandard

/-- The claim's rule list amended at the hot rule only: momentum must
exceed 0.1 (the code's threshold, `PATTERN_HOT_MOMENTUM = 0.10`), not
merely be positive. -/
def amendedRecommendationC5 (s : PatternStats) : RecommendationTag :=
  if s.total_trades < 20 then .lowData
  else if s.recent_win_rate > 0.70 ∧ s.momentum_score > 0.1 then .hotPattern
  else if s.recent_win_rate < 0.35 then .coldPattern
  else if s.expectancy > 0.02 then .profitable
  else if s.expectancy < -0.01 then .losingPattern
  else .neutralStandard

/-- The confidence tier as a pure function of the trade count, as
`update_pattern_performance` persists it (database.py lines 156-162). -/
def confidenceTier (total_trades : Nat) : String :=
  if total_trades ≥ 50 then "high"
  else if total_trades ≥ 20 then "medium"
  else "low"

/-- A stats record with 25 trades (medium tier), recent win rate 0.75 and
momentum 0.05: positive momentum, but below the code's 0.1 hot threshold. -/
def hotBoundaryStats : PatternStats :=
  { pattern_id := "momentum_greed_high_overbought"
    total_trades := 25
    winning_trades := 15
    losing_trades := 10
    win_rate := 0.60
    avg_win_percent := 2
    avg_loss_percent := 1
    expectancy := 0.8
    recent_trades := []
    recent_win_rate := 0.75
    recent_avg_return := 1
    momentum_score := 0.05
    confidence_level := "medium"
    is_active := true }

/-- Counterexample to C5: at recent win rate 0.75 and momentum 0.05 the
claim's rules pick the hot recommendation, but the code requires momentum
> 0.1 and falls through to the expectancy rule. -/
theorem recommendation_hot_momentum_counterexample :
    generateRecommendation hotBoundaryStats = .profitable ∧
      claimedRecommendationC5 hotBoundaryStats = .hotPattern := by
  constructor
  · rw [generateRecommendation,
      if_neg (show ¬(hotBoundaryStats.confidence_level = "low") by decide),
      if_neg (show ¬(hotBoundaryStats.recent_win_rate > 0.70 ∧
        hotBoundaryStats.momentum_score > 0.1) by
          rw [not_and]
          intro _
          norm_num [hotBoundaryStats]),
      if_neg (show ¬(hotBoundaryStats.recent_win_rate < 0.35) by
        norm_num [hotBoundaryStats]),
      if_pos (show hotBoundaryStats.expectancy > 0.02 by
        norm_num [hotBoundaryStats])]
  · rw [claimedRecommendationC5,
      if_neg (show ¬(hotBoundaryStats.total_trades < 20) by
        norm_num [hotBoundaryStats]),
      if_pos (show hotBoundaryStats.recent_win_rate > 0.70 ∧
        hotBoundaryStats.momentum_score > 0 by
          constructor <;> norm_num [hotBoundaryStats])]

/-- C5 (amended).  On every stats record whose stored confidence tier is
consistent with its trade count, the code's recommendation follows exactly
the claim's first-match rules with the hot rule requiring momentum > 0.1
rather than merely positive momentum. -/
theorem recommendation_precedence_amended (s : PatternStats)
    (h : s.confidence_level = confidenceTier s.total_trades) :
    generateRecommendation s = amendedRecommendationC5 s := by
  rcases lt_or_le s.total_trades 20 with h20 | h20
  · have htier : confidenceTier s.total_trades = "low" := by
      rw [confidenceTier, if_neg (by omega), if_neg (by omega)]
    rw [generateRecommendation, amendedRecommendationC5, h, htier,
      if_pos rfl, if_pos h20]
  · rcases lt_or_le s.total_trades 50 with h50 | h50
    · have htier : confidenceTier s.total_trades = "medium" := by
        rw [confidenceTier, if_neg (by omega), if_pos (by omega)]
      rw [generateRecommendation, amendedRecommendationC5, h, htier,
        if_neg (show ¬("medium" = "low") by decide),
        if_neg (show ¬(s.total_trades < 20) by omega)]
    · have htier : confidenceTier s.total_trades = "high" := by
        rw [confidenceTier, if_pos (by omega)]
      rw [generateRecommendation, amendedRecommendationC5, h, htier,
        if_neg (show ¬("high" = "low") by decide),
        if_neg (show ¬(s.total_trades < 20) by omega)]

/-- Witness for the amended C5: the tier hypothesis discharged on the
concrete boundary record. -/
theorem recommendation_precedence_amended_witness :
    generateRecommendation hotBoundaryStats
      = amendedRecommendationC5 hotBoundaryStats :=
  recommendation_precedence_amended hotBoundaryStats rfl

/-! Memory injector (memory_injector.py).  A consumer channel is its
`add_situations` operation, which either succeeds or raises; the
natural-language (situation, recommendation) text is abstracted to strings
built from the pattern id (the real strings interpolate floats, and no
claim inspects the text). -/

/-- One consumer memory channel (`self.memories[name]`). -/
structure MemoryChannel where
  addSituations : List (String × String) → Except String Unit

/-- The injector's mutable state: the configured channels in dict insertion
order, and the dedup ring buffer `_injection_history` (max 100). -/
structure InjectorState where
  memories : List (String × MemoryChannel)
  injection_history : List String

/-- Abstraction of `format_pattern_as_memory` (memory_injector.py lines
34-51). -/
def formatPatternAsMemory (p : PatternStats) : String × String :=
  ("situation " ++ p.pattern_id, "lesson " ++ p.pattern_id)

/-- `_record_injection` (memory_injector.py lines 331-335): append, then
trim to the most recent `_max_history = 100` entries. -/
def recordInjection (history : List String) (pid : String) : List String :=
  let h := history ++ [pid]
  if h.length > 100 then h.drop (h.length - 100) else h

/-- The per-audience message lists built by the first loop of
`inject_pattern_batch` (memory_injector.py lines 146-183), together with
the dedup history as it is mutated inside that loop. -/
structure BatchAccum where
  history : List String
  trader : List (String × String)
  bull : List (String × String)
  bear : List (String × String)
  risk : List (String × String)
  judge : List (String × String)

/-- One iteration of the pattern loop of `inject_pattern_batch`: skip a
recently injected pattern; otherwise build the audience variants
(bull/judge when win_rate > 0.60, bear/risk when win_rate < 0.45, trader
always) and record the injection — all before any delivery happens. -/
def batchStep (acc : BatchAccum) (p : PatternStats) : BatchAccum :=
  if p.pattern_id ∈ acc.history then acc
  else
    let sr := formatPatternAsMemory p
    let acc2 :=
      if p.win_rate > 0.60 then
        { acc with
          bull := acc.bull ++ [(sr.1, "BULLISH PATTERN: " ++ sr.2)]
          judge := acc.judge ++ [(sr.1, "FAVORABLE PATTERN: " ++ sr.2)] }
      else if p.win_rate < 0.45 then
        { acc with
          bear := acc.bear ++ [(sr.1, "BEARISH WARNING: " ++ sr.2)]
          risk := acc.risk ++ [(sr.1, "HIGH RISK PATTERN: " ++ sr.2)] }
      else acc
    { acc2 with
      trader := acc2.trader ++ [sr]
      history := recordInjection acc.history p.pattern_id }

/-- One delivery block of `inject_pattern_batch` (lines 188-213): when the
audience list is non-empty and the channel is configured, call its
`add_situations` — unguarded, so a raise propagates — and add the list
length to the running count; a missing channel is a silent no-op. -/
def deliverBatch (memories : List (String × MemoryChannel)) (name : String)
    (entries : List (String × String)) (count : Nat) : Except String Nat :=
  if entries.length ≠ 0 then
    match memories.find? (fun m => m.1 == name) with
    | some ch => do
        _ ← ch.2.addSituations entries
        pure (count + entries.length)
    | none => pure count
  else pure count

/-- `inject_pattern_batch` (memory_injector.py lines 132-221): the pattern
loop (dedup check, audience lists, history recording) runs first; the five
channel deliveries run afterwards, sequentially and unguarded.  The
history mutation survives even when a later delivery raises, which the
pair return type captures.  (`_log_learning_event`, an append-only DB log,
is not modelled.)  The delivery phase, returning the count. -/
def injectPatternBatchResult (st : InjectorState)
    (patterns : List PatternStats) : Except String Nat := do
  let acc := patterns.foldl batchStep ⟨st.injection_history, [], [], [], [], []⟩
  let c1 ← deliverBatch st.memories "trader_memory" acc.trader 0
  let c2 ← deliverBatch st.memories "bull_memory" acc.bull c1
  let c3 ← deliverBatch st.memories "bear_memory" acc.bear c2
  let c4 ← deliverBatch st.memories "risk_manager_memory" acc.risk c3
  let c5 ← deliverBatch st.memories "invest_judge_memory" acc.judge c4
  pure c5

/-- `inject_pattern_batch` as state transformer plus result: the history
mutated by the pattern loop, paired with the delivery outcome. -/
def injectPatternBatch (st : InjectorState) (patterns : List PatternStats) :
    InjectorState × Except String Nat :=
  ({ st with injection_history :=
      (patterns.foldl batchStep
        ⟨st.injection_history, [], [], [], [], []⟩).history },
    injectPatternBatchResult st patterns)

/-- Abstraction of the single-outcome memory entry built by
`inject_single_pattern_outcome` (memory_injector.py lines 231-259). -/
def singleOutcomeEntry (pattern_id : String) : List (String × String) :=
  [("just completed trade, pattern " ++ pattern_id,
    "outcome for " ++ pattern_id)]

/-- `inject_single_pattern_outcome` (memory_injector.py lines 258-280):
deliver the entry to every configured channel, catching a per-channel
raise and continuing; the names actually reached go into the learning
event, and the return value is the boolean `len(injected_to) > 0`. -/
def injectSinglePatternOutcome (memories : List (String × MemoryChannel))
    (pattern_id : String) : List String × Bool :=
  let injected_to := memories.foldl (fun acc m =>
    match m.2.addSituations (singleOutcomeEntry pattern_id) with
    | .ok _ => acc ++ [m.1]
    | .error _ => acc) []
  (injected_to, injected_to.length > 0)

/-- A channel whose `add_situations` raises. -/
def failingChannel (msg : String) : MemoryChannel :=
  ⟨fun _ => .error msg⟩

/-- A channel whose `add_situations` always succeeds. -/
def okChannel : MemoryChannel :=
  ⟨fun _ => .ok ()⟩

/-- A winning pattern (win rate 0.70) eligible for bull/judge variants. -/
def winningPattern : PatternStats :=
  { pattern_id := "breakout_greed_explosive_overbought"
    total_trades := 30
    winning_trades := 21
    losing_trades := 9
    win_rate := 0.70
    avg_win_percent := 2
    avg_loss_percent := 1
    expectancy := 1.1
    recent_trades := []
    recent_win_rate := 0.7
    recent_avg_return := 1
    momentum_score := 0
    confidence_level := "medium"
    is_active := true }

/-- Counterexample to C4: with a raising trader channel and a healthy bull
channel configured, `inject_pattern_batch` propagates the exception — the
bull channel is never attempted and no count is returned. -/
theorem inject_pattern_batch_failure_propagates :
    (injectPatternBatch
        ⟨[("trader_memory", failingChannel "boom"), ("bull_memory", okChannel)],
          []⟩
        [winningPattern]).2 = Except.error "boom" := by
  have hc1 : (winningPattern.pattern_id ∈ ([] : List String)) = False := by simp
  have hc2 : (winningPattern.win_rate > 0.60) = True :=
    eq_true (by norm_num [winningPattern])
  have hstep : List.foldl batchStep ⟨[], [], [], [], [], []⟩ [winningPattern]
      = { history := [winningPattern.pattern_id]
          trader := [formatPatternAsMemory winningPattern]
          bull := [((formatPatternAsMemory winningPattern).1,
            "BULLISH PATTERN: " ++ (formatPatternAsMemory winningPattern).2)]
          bear := []
          risk := []
          judge := [((formatPatternAsMemory winningPattern).1,
            "FAVORABLE PATTERN: " ++ (formatPatternAsMemory winningPattern).2)] } := by
    show batchStep ⟨[], [], [], [], [], []⟩ winningPattern = _
    simp only [batchStep, hc1, hc2, if_true, if_false, recordInjection]
    norm_num
  show injectPatternBatchResult _ _ = _
  simp only [injectPatternBatchResult, hstep]
  rfl

/-- Whether a channel accepts the given entry without raising. -/
def deliveryOk (entry : List (String × String)) (m : String × MemoryChannel) :
    Bool :=
  match m.2.addSituations entry with
  | .ok _ => true
  | .error _ => false

lemma injectSingle_foldl (entry : List (String × String)) :
    ∀ (ms : List (String × MemoryChannel)) (acc : List String),
      ms.foldl (fun acc m =>
          match m.2.addSituations entry with
          | .ok _ => acc ++ [m.1]
          | .error _ => acc) acc
        = acc ++ (ms.filter (deliveryOk entry)).map (fun m => m.1)
  | [], acc => by simp
  | m :: ms, acc => by
    rcases h : m.2.addSituations entry with e | u
    · have : deliveryOk entry m = false := by rw [deliveryOk, h]
      simp only [List.foldl_cons, h, List.filter_cons, this, Bool.false_eq_true,
        if_false]
      exact injectSingle_foldl entry ms acc
    · have : deliveryOk entry m = true := by rw [deliveryOk, h]
      simp only [List.foldl_cons, h, List.filter_cons, this, if_true,
        List.map_cons]
      rw [injectSingle_foldl entry ms (acc ++ [m.1]), List.append_assoc]
      rfl

/-- C4 (amended).  In `inject_single_pattern_outcome` a per-channel raise
is caught: the channels reached are exactly those whose `add_situations`
succeeds, a failing channel in the middle does not block the rest, and the
return value is only the boolean "at least one channel reached" (not a
count).  In `inject_pattern_batch` delivery is unguarded: a raise from the
trader channel propagates, aborting the remaining channel deliveries. -/
theorem injection_failure_semantics_amended :
    (∀ (mems : List (String × MemoryChannel)) (pid : String),
      (injectSinglePatternOutcome mems pid).1
        = (mems.filter (deliveryOk (singleOutcomeEntry pid))).map
            (fun m => m.1) ∧
      ((injectSinglePatternOutcome mems pid).2 = true ↔
        (injectSinglePatternOutcome mems pid).1 ≠ [])) ∧
    (∀ (pre post : List (String × MemoryChannel)) (n : String)
        (ch : MemoryChannel) (pid : String) (e : String),
      ch.addSituations (singleOutcomeEntry pid) = Except.error e →
      (injectSinglePatternOutcome (pre ++ (n, ch) :: post) pid).1
        = (injectSinglePatternOutcome (pre ++ post) pid).1) ∧
    (∀ (st : InjectorState) (pats : List PatternStats)
        (mp : String × MemoryChannel) (e : String),
      st.memories.find? (fun m => m.1 == "trader_memory") = some mp →
      (pats.foldl batchStep
        ⟨st.injection_history, [], [], [], [], []⟩).trader.length ≠ 0 →
      mp.2.addSituations
          (pats.foldl batchStep
            ⟨st.injection_history, [], [], [], [], []⟩).trader
        = Except.error e →
      (injectPatternBatch st pats).2 = Except.error e) := by
  have hchar : ∀ (mems : List (String × MemoryChannel)) (pid : String),
      (injectSinglePatternOutcome mems pid).1
        = (mems.filter (deliveryOk (singleOutcomeEntry pid))).map
            (fun m => m.1) := by
    intro mems pid
    show mems.foldl _ [] = _
    rw [injectSingle_foldl (singleOutcomeEntry pid) mems []]
    rfl
  refine ⟨fun mems pid => ⟨hchar mems pid, ?_⟩, ?_, ?_⟩
  · show (decide _ = true) ↔ _
    rw [decide_eq_true_iff]
    exact List.length_pos
  · intro pre post n ch pid e hfail
    rw [hchar, hchar]
    have : deliveryOk (singleOutcomeEntry pid) (n, ch) = false := by
      rw [deliveryOk, hfail]
    rw [List.filter_append, List.filter_cons, this]
    simp only [Bool.false_eq_true, if_false, List.filter_append]
  · intro st pats mp e hfind hne hfail
    have h1 : deliverBatch st.memories "trader_memory"
        (pats.foldl batchStep
          ⟨st.injection_history, [], [], [], [], []⟩).trader 0
        = Except.error e := by
      rw [deliverBatch, if_pos hne, hfind]
      show (do
          _ ← mp.2.addSituations
            (pats.foldl batchStep
              ⟨st.injection_history, [], [], [], [], []⟩).trader
          pure (0 + (pats.foldl batchStep
            ⟨st.injection_history, [], [], [], [], []⟩).trader.length)
          : Except String Nat) = Except.error e
      rw [hfail]
      rfl
    show injectPatternBatchResult st pats = Except.error e
    simp only [injectPatternBatchResult]
    rw [h1]
    rfl

/-- Witness for the amended C4: a raising channel between two healthy ones
is skipped without blocking them, discharged at a concrete configuration. -/
theorem injection_failure_semantics_amended_witness :
    (injectSinglePatternOutcome
        [("bull_memory", okChannel), ("bear_memory", failingChannel "down"),
          ("trader_memory", okChannel)] "pat").1
      = (injectSinglePatternOutcome
          [("bull_memory", okChannel), ("trader_memory", okChannel)] "pat").1 :=
  injection_failure_semantics_amended.2.1
    [("bull_memory", okChannel)] [("trader_memory", okChannel)]
    "bear_memory" (failingChannel "down") "pat" "down" rfl

lemma batchStep_history (acc : BatchAccum) (p : PatternStats) :
    (batchStep acc p).history
      = if p.pattern_id ∈ acc.history then acc.history
        else recordInjection acc.history p.pattern_id := by
  rw [batchStep]
  split
  · rfl
  · rfl

lemma recordInjection_append (h : List String) (pid : String)
    (hl : h.length ≤ 99) : recordInjection h pid = h ++ [pid] := by
  rw [recordInjection]
  rw [if_neg]
  simp only [List.length_append, List.length_singleton]
  omega

lemma batch_foldl_mem :
    ∀ (pats : List PatternStats) (acc : BatchAccum),
      acc.history.length + pats.length ≤ 100 →
      (∀ q ∈ acc.history, q ∈ (pats.foldl batchStep acc).history) ∧
      (∀ p ∈ pats, p.pattern_id ∈ (pats.foldl batchStep acc).history)
  | [], acc, _ => ⟨fun _ hq => hq, fun _ hp => absurd hp (List.not_mem_nil _)⟩
  | p :: pats, acc, hlen => by
    have hstep : (batchStep acc p).history = acc.history ∨
        (batchStep acc p).history = acc.history ++ [p.pattern_id] := by
      rw [batchStep_history]
      split
      · exact Or.inl rfl
      · exact Or.inr (recordInjection_append _ _ (by
          simp only [List.length_cons] at hlen
          omega))
    have hmem : p.pattern_id ∈ (batchStep acc p).history := by
      rw [batchStep_history]
      split
      · assumption
      · rw [recordInjection_append _ _ (by
          simp only [List.length_cons] at hlen
          omega)]
        simp
    have hsub : ∀ q ∈ acc.history, q ∈ (batchStep acc p).history := by
      rcases hstep with h | h <;> rw [h]
      · exact fun _ hq => hq
      · exact fun q hq => List.mem_append_left _ hq
    have hlen2 : (batchStep acc p).history.length + pats.length ≤ 100 := by
      rcases hstep with h | h <;> rw [h] <;>
        simp only [List.length_append, List.length_singleton,
          List.length_cons, List.length_nil] at hlen ⊢ <;> omega
    have ih := batch_foldl_mem pats (batchStep acc p) hlen2
    refine ⟨fun q hq => ih.1 q (hsub q hq), fun r hr => ?_⟩
    rcases List.mem_cons.mp hr with h | h
    · rw [h]
      exact ih.1 _ hmem
    · exact ih.2 r h

lemma batch_foldl_skip :
    ∀ (pats : List PatternStats) (acc : BatchAccum),
      (∀ p ∈ pats, p.pattern_id ∈ acc.history) →
      pats.foldl batchStep acc = acc
  | [], _, _ => rfl
  | p :: pats, acc, h => by
    have hp : batchStep acc p = acc := by
      rw [batchStep, if_pos (h p (List.mem_cons_self p pats))]
    show pats.foldl batchStep (batchStep acc p) = acc
    rw [hp]
    exact batch_foldl_skip pats acc (fun q hq => h q (List.mem_cons_of_mem p hq))

lemma deliverBatch_no_channels (name : String)
    (entries : List (String × String)) (c : Nat) :
    deliverBatch [] name entries c = Except.ok c := by
  rw [deliverBatch]
  split
  · rfl
  · rfl

lemma deliverBatch_no_entries (mems : List (String × MemoryChannel))
    (name : String) (c : Nat) :
    deliverBatch mems name [] c = Except.ok c := by
  rw [deliverBatch]
  rw [if_neg (by simp)]
  rfl

/-- C10.  The dedup buffer is written by the pattern loop before the
delivery phase: the recorded history is independent of the configured
channels; with no channels configured the call reports zero deliveries yet
(absent eviction) every batch pattern lands in the buffer; and a batch
whose patterns are all in the buffer is skipped outright — no deliveries,
no buffer change — whatever channels are configured. -/
theorem batch_dedup_records_before_delivery
    (hist : List String) (pats : List PatternStats)
    (mems mems2 : List (String × MemoryChannel)) :
    ((injectPatternBatch ⟨mems, hist⟩ pats).1.injection_history
      = (injectPatternBatch ⟨mems2, hist⟩ pats).1.injection_history) ∧
    ((injectPatternBatch ⟨[], hist⟩ pats).2 = Except.ok 0) ∧
    (hist.length + pats.length ≤ 100 →
      ∀ p ∈ pats, p.pattern_id
        ∈ (injectPatternBatch ⟨mems, hist⟩ pats).1.injection_history) ∧
    ((∀ p ∈ pats, p.pattern_id ∈ hist) →
      (injectPatternBatch ⟨mems, hist⟩ pats).2 = Except.ok 0 ∧
      (injectPatternBatch ⟨mems, hist⟩ pats).1.injection_history = hist) := by
  refine ⟨rfl, ?_, ?_, ?_⟩
  · show injectPatternBatchResult ⟨[], hist⟩ pats = Except.ok 0
    simp only [injectPatternBatchResult, deliverBatch_no_channels]
    rfl
  · intro hlen p hp
    exact (batch_foldl_mem pats ⟨hist, [], [], [], [], []⟩ (by simpa)).2 p hp
  · intro hall
    have hskip : pats.foldl batchStep ⟨hist, [], [], [], [], []⟩
        = ⟨hist, [], [], [], [], []⟩ :=
      batch_foldl_skip pats _ hall
    constructor
    · show injectPatternBatchResult ⟨mems, hist⟩ pats = Except.ok 0
      simp only [injectPatternBatchResult, hskip, deliverBatch_no_entries]
      rfl
    · show (pats.foldl batchStep ⟨hist, [], [], [], [], []⟩).history = hist
      rw [hskip]

/-- Witness for C10: a one-pattern batch with no channels configured
delivers nothing, yet the dedup buffer gains the pattern and an identical
second batch is skipped, discharged at a concrete state. -/
theorem batch_dedup_records_before_delivery_witness :
    ((injectPatternBatch ⟨[], []⟩ [winningPattern]).2 = Except.ok 0) ∧
    winningPattern.pattern_id
      ∈ (injectPatternBatch ⟨[], []⟩ [winningPattern]).1.injection_history ∧
    (injectPatternBatch
        ⟨[], (injectPatternBatch ⟨[], []⟩ [winningPattern]).1.injection_history⟩
        [winningPattern]).1.injection_history
      = (injectPatternBatch ⟨[], []⟩ [winningPattern]).1.injection_history := by
  have h1 := batch_dedup_records_before_delivery [] [winningPattern] [] []
  refine ⟨h1.2.1, ?_, ?_⟩
  · exact (h1.2.2.1 (by simp)) winningPattern (List.mem_singleton.mpr rfl)
  · have h2 := batch_dedup_records_before_delivery
      (injectPatternBatch ⟨[], []⟩ [winningPattern]).1.injection_history
      [winningPattern] [] []
    exact (h2.2.2.2 (fun p hp => by
      rw [List.mem_singleton.mp hp]
      exact (h1.2.2.1 (by simp)) winningPattern (List.mem_singleton.mpr rfl))).2

/-! Analyzer orchestration (analyzer.py).  The store and injector the
analyzer calls are abstracted to operations that either return a value or
raise (Python exceptions as `Except.error`). -/

/-- The operations `run_weekly_analysis` and `run_daily_check` invoke on
the store and the injector, each able to raise. -/
structure AnalyzerOps where
  getTopPatterns : Nat → Nat → Except String (List PatternStats)
  getBreakingPatterns : ℚ → Nat → Except String (List PatternStats)
  getHotPatterns : ℚ → Except String (List PatternStats)
  injectBatch : List PatternStats → String → Except String Nat
  analyzeRegimeTransitions : Except String (Option String)
  deactivateStalePatterns : Nat → Except String Nat

/-- One step of `_prioritize_patterns`' dedup-by-id accumulation
(analyzer.py lines 223-257); the `priority` label written onto each dict is
not modelled (nothing reads it here). -/
def prioritizeStep (acc : List PatternStats × List String)
    (p : PatternStats) : List PatternStats × List String :=
  if p.pattern_id ∈ acc.2 then acc
  else (acc.1 ++ [p], acc.2 ++ [p.pattern_id])

/-- `PatternAnalyzer._prioritize_patterns` (analyzer.py lines 223-257):
breaking first, then hot, then at most five top patterns, deduplicated by
pattern id. -/
def prioritizePatterns (top breaking hot : List PatternStats) :
    List PatternStats :=
  ((top.take 5).foldl prioritizeStep
    (hot.foldl prioritizeStep
      (breaking.foldl prioritizeStep ([], [])))).1

/-- `_generate_analysis_summary` (analyzer.py lines 321-344), with the
percentage formatting abstracted away (the floats are unprintable here;
only which parts appear matters). -/
def generateAnalysisSummary (top breaking hot : List PatternStats) : String :=
  let parts :=
    (match top with
      | [] => []
      | b :: _ => ["Best pattern: " ++ b.pattern_id]) ++
    (match breaking with
      | [] => []
      | w :: _ => ["Worst breakdown: " ++ w.pattern_id]) ++
    (match hot with
      | [] => []
      | h :: _ => ["Hottest pattern: " ++ h.pattern_id])
  if parts.length = 0 then "No significant patterns found"
  else String.intercalate ". " parts

/-- The summary dict built by `run_weekly_analysis`: the counters start at
zero and the findings keys are added as the steps complete, so a raise
midway leaves the partial fields plus `error`. -/
structure AnalysisResults where
  patterns_analyzed : Nat := 0
  memories_injected : Nat := 0
  findings_top : Option Nat := none
  findings_breaking : Option Nat := none
  findings_hot : Option Nat := none
  regime_transition : Option String := none
  summary : Option String := none
  patterns_deactivated : Option Nat := none
  error : Option String := none

/-- `PatternAnalyzer.run_weekly_analysis` (analyzer.py lines 35-101): the
whole body sits in one `try`; each store/injector call that raises ends
the body with the fields filled so far plus the `error` field, and the
function itself always returns the summary dict. -/
def runWeeklyAnalysis (ops : AnalyzerOps) : AnalysisResults :=
  let r0 : AnalysisResults := {}
  match ops.getTopPatterns 10 20 with
  | .error e => { r0 with error := some e }
  | .ok top =>
    let r1 := { r0 with findings_top := some top.length }
    match ops.getBreakingPatterns 0.40 20 with
    | .error e => { r1 with error := some e }
    | .ok breaking =>
      let r2 := { r1 with findings_breaking := some breaking.length }
      match ops.getHotPatterns 0.10 with
      | .error e => { r2 with error := some e }
      | .ok hot =>
        let r3 := { r2 with findings_hot := some hot.length }
        let r4 := { r3 with
          patterns_analyzed := (prioritizePatterns top breaking hot).length }
        match (if (prioritizePatterns top breaking hot).length ≠ 0 then
            ops.injectBatch (prioritizePatterns top breaking hot)
              "weekly_analysis"
          else Except.ok 0) with
        | .error e => { r4 with error := some e }
        | .ok injected =>
          let r5 := { r4 with memories_injected := injected }
          match ops.analyzeRegimeTransitions with
          | .error e => { r5 with error := some e }
          | .ok rt =>
            let r6 := { r5 with
              regime_transition := rt
              summary := some (generateAnalysisSummary top breaking hot) }
            match ops.deactivateStalePatterns 30 with
            | .error e => { r6 with error := some e }
            | .ok d => { r6 with patterns_deactivated := some d }

/-- The result dict of `run_daily_check`: alert (type, pattern_id) pairs
and the action strings. -/
structure DailyCheckResults where
  alerts : List (String × String)
  actions_taken : List String

/-- `PatternAnalyzer.run_daily_check` (analyzer.py lines 103-151): no
`try` anywhere — a raise from the store or the injector propagates to the
caller. -/
def runDailyCheck (ops : AnalyzerOps) : Except String DailyCheckResults := do
  let critical ← ops.getBreakingPatterns 0.30 10
  let acc ← critical.foldlM
    (fun (acc : List (String × String) × List String) p =>
      if p.recent_win_rate < 0.25 then do
        let _ ← ops.injectBatch [p] "critical_alert"
        pure (acc.1 ++ [("critical_breakdown", p.pattern_id)],
              acc.2 ++ ["Injected warning for " ++ p.pattern_id])
      else pure acc)
    ([], [])
  let hot ← ops.getHotPatterns 0.20
  let alerts := hot.foldl
    (fun a p =>
      if p.recent_win_rate > 0.80 then a ++ [("hot_pattern", p.pattern_id)]
      else a)
    acc.1
  pure ⟨alerts, acc.2⟩

/-- A store whose breaking-patterns query raises (the table is missing)
while everything else succeeds. -/
def missingTableOps : AnalyzerOps :=
  { getTopPatterns := fun _ _ => .ok []
    getBreakingPatterns := fun _ _ => .error "no such table: trade_patterns"
    getHotPatterns := fun _ => .ok []
    injectBatch := fun _ _ => .ok 0
    analyzeRegimeTransitions := .ok none
    deactivateStalePatterns := fun _ => .ok 0 }

/-- Counterexample to C3: `run_daily_check` has no try/except — when the
store's breaking-patterns query raises, the exception propagates to the
caller instead of being surfaced in an `error` field. -/
theorem run_daily_check_propagates :
    runDailyCheck missingTableOps
      = Except.error "no such table: trade_patterns" := by
  rfl

/-- A store on which every analyzer operation succeeds with empty data. -/
def healthyEmptyOps : AnalyzerOps :=
  { getTopPatterns := fun _ _ => .ok []
    getBreakingPatterns := fun _ _ => .ok []
    getHotPatterns := fun _ => .ok []
    injectBatch := fun _ _ => .ok 0
    analyzeRegimeTransitions := .ok none
    deactivateStalePatterns := fun _ => .ok 0 }

lemma weekly_err_top (ops : AnalyzerOps) (e : String)
    (h1 : ops.getTopPatterns 10 20 = .error e) :
    (runWeeklyAnalysis ops).error = some e := by
  simp only [runWeeklyAnalysis, h1]

lemma weekly_err_breaking (ops : AnalyzerOps) (e : String)
    (top : List PatternStats)
    (h1 : ops.getTopPatterns 10 20 = .ok top)
    (h2 : ops.getBreakingPatterns 0.40 20 = .error e) :
    (runWeeklyAnalysis ops).error = some e := by
  simp only [runWeeklyAnalysis, h1, h2]

lemma weekly_err_hot (ops : AnalyzerOps) (e : String)
    (top breaking : List PatternStats)
    (h1 : ops.getTopPatterns 10 20 = .ok top)
    (h2 : ops.getBreakingPatterns 0.40 20 = .ok breaking)
    (h3 : ops.getHotPatterns 0.10 = .error e) :
    (runWeeklyAnalysis ops).error = some e := by
  simp only [runWeeklyAnalysis, h1, h2, h3]

lemma weekly_err_inject (ops : AnalyzerOps) (e : String)
    (top breaking hot : List PatternStats)
    (h1 : ops.getTopPatterns 10 20 = .ok top)
    (h2 : ops.getBreakingPatterns 0.40 20 = .ok breaking)
    (h3 : ops.getHotPatterns 0.10 = .ok hot)
    (h4 : (if (prioritizePatterns top breaking hot).length ≠ 0 then
        ops.injectBatch (prioritizePatterns top breaking hot)
          "weekly_analysis"
      else Except.ok 0) = .error e) :
    (runWeeklyAnalysis ops).error = some e := by
  simp only [runWeeklyAnalysis, h1, h2, h3, h4]

lemma weekly_err_regime (ops : AnalyzerOps) (e : String)
    (top breaking hot : List PatternStats) (injected : Nat)
    (h1 : ops.getTopPatterns 10 20 = .ok top)
    (h2 : ops.getBreakingPatterns 0.40 20 = .ok breaking)
    (h3 : ops.getHotPatterns 0.10 = .ok hot)
    (h4 : (if (prioritizePatterns top breaking hot).length ≠ 0 then
        ops.injectBatch (prioritizePatterns top breaking hot)
          "weekly_analysis"
      else Except.ok 0) = .ok injected)
    (h5 : ops.analyzeRegimeTransitions = .error e) :
    (runWeeklyAnalysis ops).error = some e := by
  simp only [runWeeklyAnalysis, h1, h2, h3, h4, h5]

lemma weekly_err_stale (ops : AnalyzerOps) (e : String)
    (top breaking hot : List PatternStats) (injected : Nat)
    (rt : Option String)
    (h1 : ops.getTopPatterns 10 20 = .ok top)
    (h2 : ops.getBreakingPatterns 0.40 20 = .ok breaking)
    (h3 : ops.getHotPatterns 0.10 = .ok hot)
    (h4 : (if (prioritizePatterns top breaking hot).length ≠ 0 then
        ops.injectBatch (prioritizePatterns top breaking hot)
          "weekly_analysis"
      else Except.ok 0) = .ok injected)
    (h5 : ops.analyzeRegimeTransitions = .ok rt)
    (h6 : ops.deactivateStalePatterns 30 = .error e) :
    (runWeeklyAnalysis ops).error = some e := by
  simp only [runWeeklyAnalysis, h1, h2, h3, h4, h5, h6]

lemma weekly_all_ok (ops : AnalyzerOps)
    (top breaking hot : List PatternStats) (injected : Nat)
    (rt : Option String) (d : Nat)
    (h1 : ops.getTopPatterns 10 20 = .ok top)
    (h2 : ops.getBreakingPatterns 0.40 20 = .ok breaking)
    (h3 : ops.getHotPatterns 0.10 = .ok hot)
    (h4 : (if (prioritizePatterns top breaking hot).length ≠ 0 then
        ops.injectBatch (prioritizePatterns top breaking hot)
          "weekly_analysis"
      else Except.ok 0) = .ok injected)
    (h5 : ops.analyzeRegimeTransitions = .ok rt)
    (h6 : ops.deactivateStalePatterns 30 = .ok d) :
    (runWeeklyAnalysis ops).error = none := by
  simp only [runWeeklyAnalysis, h1, h2, h3, h4, h5, h6]

/-- C3 (amended).  `run_weekly_analysis` never raises: its whole body is
guarded, so its result either carries `error := none` or carries
`error := some e` where `e` came from one of the six store/injector calls
it makes.  `run_daily_check` has no such guard: an exception from its
first store query propagates to the caller. -/
theorem weekly_catches_daily_propagates :
    (∀ ops : AnalyzerOps,
      (runWeeklyAnalysis ops).error = none ∨
      ∃ e, (runWeeklyAnalysis ops).error = some e ∧
        (ops.getTopPatterns 10 20 = .error e ∨
         ops.getBreakingPatterns 0.40 20 = .error e ∨
         ops.getHotPatterns 0.10 = .error e ∨
         (∃ top breaking hot,
           ops.getTopPatterns 10 20 = .ok top ∧
           ops.getBreakingPatterns 0.40 20 = .ok breaking ∧
           ops.getHotPatterns 0.10 = .ok hot ∧
           ops.injectBatch (prioritizePatterns top breaking hot)
             "weekly_analysis" = .error e) ∨
         ops.analyzeRegimeTransitions = .error e ∨
         ops.deactivateStalePatterns 30 = .error e)) ∧
    (∀ (ops : AnalyzerOps) (e : String),
      ops.getBreakingPatterns 0.30 10 = Except.error e →
      runDailyCheck ops = Except.error e) := by
  constructor
  · intro ops
    cases h1 : ops.getTopPatterns 10 20 with
    | error e1 => exact Or.inr ⟨e1, weekly_err_top ops e1 h1, Or.inl rfl⟩
    | ok top =>
      cases h2 : ops.getBreakingPatterns 0.40 20 with
      | error e2 =>
        exact Or.inr ⟨e2, weekly_err_breaking ops e2 top h1 h2,
          Or.inr (Or.inl rfl)⟩
      | ok breaking =>
        cases h3 : ops.getHotPatterns 0.10 with
        | error e3 =>
          exact Or.inr ⟨e3, weekly_err_hot ops e3 top breaking h1 h2 h3,
            Or.inr (Or.inr (Or.inl rfl))⟩
        | ok hot =>
          cases h4 : (if (prioritizePatterns top breaking hot).length ≠ 0 then
              ops.injectBatch (prioritizePatterns top breaking hot)
                "weekly_analysis"
            else Except.ok 0) with
          | error e4 =>
            refine Or.inr ⟨e4,
              weekly_err_inject ops e4 top breaking hot h1 h2 h3 h4,
              Or.inr (Or.inr (Or.inr (Or.inl
                ⟨top, breaking, hot, rfl, rfl, rfl, ?_⟩)))⟩
            by_cases hne : (prioritizePatterns top breaking hot).length ≠ 0
            · rwa [if_pos hne] at h4
            · rw [if_neg hne] at h4
              cases h4
          | ok injected =>
            cases h5 : ops.analyzeRegimeTransitions with
            | error e5 =>
              exact Or.inr ⟨e5,
                weekly_err_regime ops e5 top breaking hot injected
                  h1 h2 h3 h4 h5,
                Or.inr (Or.inr (Or.inr (Or.inr (Or.inl rfl))))⟩
            | ok rt =>
              cases h6 : ops.deactivateStalePatterns 30 with
              | error e6 =>
                exact Or.inr ⟨e6,
                  weekly_err_stale ops e6 top breaking hot injected rt
                    h1 h2 h3 h4 h5 h6,
                  Or.inr (Or.inr (Or.inr (Or.inr (Or.inr rfl))))⟩
              | ok d =>
                exact Or.inl
                  (weekly_all_ok ops top breaking hot injected rt d
                    h1 h2 h3 h4 h5 h6)
  · intro ops e h
    show (ops.getBreakingPatterns 0.30 10 >>= fun critical => _)
        = Except.error e
    rw [h]
    rfl

/-- Witness for the amended C3: the weekly guard and the daily propagation
discharged at the concrete failing store, and the all-ok branch at the
healthy store. -/
theorem weekly_catches_daily_propagates_witness :
    ((runWeeklyAnalysis healthyEmptyOps).error = none ∨
      ∃ e, (runWeeklyAnalysis healthyEmptyOps).error = some e ∧
        (healthyEmptyOps.getTopPatterns 10 20 = .error e ∨
         healthyEmptyOps.getBreakingPatterns 0.40 20 = .error e ∨
         healthyEmptyOps.getHotPatterns 0.10 = .error e ∨
         (∃ top breaking hot,
           healthyEmptyOps.getTopPatterns 10 20 = .ok top ∧
           healthyEmptyOps.getBreakingPatterns 0.40 20 = .ok breaking ∧
           healthyEmptyOps.getHotPatterns 0.10 = .ok hot ∧
           healthyEmptyOps.injectBatch
             (prioritizePatterns top breaking hot) "weekly_analysis"
             = .error e) ∨
         healthyEmptyOps.analyzeRegimeTransitions = .error e ∨
         healthyEmptyOps.deactivateStalePatterns 30 = .error e)) ∧
    runDailyCheck missingTableOps
      = Except.error "no such table: trade_patterns" :=
  ⟨weekly_catches_daily_propagates.1 healthyEmptyOps,
    weekly_catches_daily_propagates.2 missingTableOps
      "no such table: trade_patterns" rfl⟩

end Odin
